import Mathlib

/-!
Verification development for the floorplan map component
(src/unnamed/part_001, the `MapComponent` React component built on OpenLayers).

The logic of the component is embedded shallowly:

* static configuration (`DEFAULT_LOCATIONS`, `DESK_LOCATIONS`) and numeric
  constants are transcribed literally;
* the avatar compositor `createProfileStyle` becomes a pure state-passing
  function over an explicit style cache plus an environment recording which
  images load and whether a canvas 2d context is available (the two outcomes
  of the asynchronous part of the code);
* the canvas drawing performed by `createProfileStyle` is recorded as an
  `IconRender` value listing the operations the code issues;
* the pointermove and click handlers become transition functions on a
  `MapState` holding the cache, the single `hoveredFeature` reference and the
  per-feature style assignment; the fire-and-forget `setTimeout` revert of the
  click handler becomes an explicit `ScheduledRevert` value together with the
  `fireRevert` function that models the timer callback.
-/

set_option autoImplicit false

namespace Siento

/-- Location record of the static profile configuration (interface `Location`). -/
structure Location where
  coords : Nat × Nat
  profile : String
deriving DecidableEq, Repr

/-- Desk record of the static desk configuration (interface `DeskLocation`). -/
structure DeskLocation where
  coords : Nat × Nat
  size : Nat × Nat
  id : String
deriving DecidableEq, Repr

-- Constants (src/unnamed/part_001 lines 50-58)
def MIN_MAP_HEIGHT : Nat := 400
def MAX_MAP_HEIGHT : Nat := 1200
def HEADER_FOOTER_SPACE : Nat := 120
def DEFAULT_MARKER_SIZE : Nat := 30
def HOVER_MARKER_SIZE : Nat := 40
def CLICK_MARKER_SIZE : Nat := 45
def CLICK_ANIMATION_DURATION : Nat := 200
def DESK_RADIUS : Nat := 25

/-- Static profile marker configuration (lines 60-66). -/
def DEFAULT_LOCATIONS : List Location :=
  [ { coords := (176, 325), profile := "/profiles/profile1.jpeg" },
    { coords := (176, 94), profile := "/profiles/profile2.jpeg" },
    { coords := (232, 506), profile := "/profiles/profile3.jpeg" },
    { coords := (427, 506), profile := "/profiles/profile4.jpeg" },
    { coords := (309, 176), profile := "/profiles/profile1.jpeg" } ]

/-- Static desk configuration (lines 68-100); `size` is `DESK_RADIUS * 2` squared. -/
def DESK_LOCATIONS : List DeskLocation :=
  [ { coords := (176, 255), size := (DESK_RADIUS * 2, DESK_RADIUS * 2), id := "desk-1" },
    { coords := (176, 177), size := (DESK_RADIUS * 2, DESK_RADIUS * 2), id := "desk-2" },
    { coords := (333, 506), size := (DESK_RADIUS * 2, DESK_RADIUS * 2), id := "desk-3" },
    { coords := (525, 506), size := (DESK_RADIUS * 2, DESK_RADIUS * 2), id := "desk-4" },
    { coords := (309, 329), size := (DESK_RADIUS * 2, DESK_RADIUS * 2), id := "desk-5" },
    { coords := (309, 250), size := (DESK_RADIUS * 2, DESK_RADIUS * 2), id := "desk-6" },
    { coords := (309, 96), size := (DESK_RADIUS * 2, DESK_RADIUS * 2), id := "desk-6" } ]

/-- Border width hard-coded inside `createProfileStyle` (line 159). -/
def borderWidth : Nat := 3

/-- Record of the canvas compositing operations `createProfileStyle` performs on
success (lines 159-197): the canvas dimensions, the filled border circle, the
circular clipping path, the scaled image draw, and the `Icon` wrapping with its
size, anchor and anchor units. -/
structure IconRender where
  canvasW : Nat
  canvasH : Nat
  borderCenter : Nat × Nat
  borderRadius : Nat
  borderColor : String
  clipCenter : Nat × Nat
  clipRadius : Nat
  imgSource : String
  imgPos : Nat × Nat
  imgW : Nat
  imgH : Nat
  iconSize : Nat × Nat
  anchor : ℚ × ℚ
  anchorXUnits : String
  anchorYUnits : String
deriving DecidableEq, Repr

/-- Transcription of the drawing body of `createProfileStyle` for a given
profile path and size: `totalSize = size * 2 + borderWidth * 2`, border arc of
radius `size + borderWidth` at the canvas center filled `#e5e7eb`, clip arc of
radius `size` at the center, `drawImage(img, borderWidth, borderWidth,
size * 2, size * 2)`, and `new Icon` with size `[totalSize, totalSize]` and
fractional anchor `[0.5, 0.5]`. -/
def renderIcon (profilePath : String) (size : Nat) : IconRender :=
  let totalSize := size * 2 + borderWidth * 2
  { canvasW := totalSize
    canvasH := totalSize
    borderCenter := (totalSize / 2, totalSize / 2)
    borderRadius := size + borderWidth
    borderColor := "#e5e7eb"
    clipCenter := (totalSize / 2, totalSize / 2)
    clipRadius := size
    imgSource := profilePath
    imgPos := (borderWidth, borderWidth)
    imgW := size * 2
    imgH := size * 2
    iconSize := (totalSize, totalSize)
    anchor := (1/2, 1/2)
    anchorXUnits := "fraction"
    anchorYUnits := "fraction" }

/-- Marker style values the component constructs: `new Style()` with no
arguments (the empty fallback), a composited icon style, or a fill style (the
desk styles). -/
inductive MarkerStyle where
  | empty : MarkerStyle
  | icon : IconRender → MarkerStyle
  | fill : String → MarkerStyle
deriving DecidableEq, Repr

/-- Shared default desk style (lines 105-109). -/
def deskStyle : MarkerStyle := MarkerStyle.fill "rgba(0, 255, 0, 0.3)"

/-- Shared desk hover style (lines 111-115). -/
def deskHoverStyle : MarkerStyle := MarkerStyle.fill "rgba(0, 255, 0, 0.5)"

/-- Module-level style cache keyed by (profile path, pixel size); the nested
object `styleCache[profilePath][size]` is flattened to an association list on
the exact pair. Insertion conses at the front, so lookup taking the first
match realizes the overwrite semantics of assignment. -/
abbrev StyleCache := List ((String × Nat) × MarkerStyle)

/-- Lookup `styleCache[profilePath]?.[size]` on the exact (path, size) pair. -/
def cacheLookup : StyleCache → String → Nat → Option MarkerStyle
  | [], _, _ => none
  | e :: rest, src, size =>
    if e.1.1 = src ∧ e.1.2 = size then some e.2 else cacheLookup rest src size

/-- Environment for the asynchronous and DOM-dependent parts of
`createProfileStyle`: whether `canvas.getContext` returns a 2d context, and
for each image source whether its load fires `onload` (true) or `onerror`
(false). -/
structure Env where
  hasContext : Bool
  imgLoads : String → Bool

/-- Result of one `createProfileStyle` call: the resolved style, the cache
after the call, whether the canvas compositing path ran (as opposed to a cache
hit or the missing-context early resolve), and the console errors emitted. -/
structure StyleResult where
  style : MarkerStyle
  cache : StyleCache
  composited : Bool
  errors : List String
deriving Repr

/-- Shallow embedding of `createProfileStyle` (lines 145-212). On a cache hit
the cached style is returned unchanged. Otherwise, with no 2d context the
promise resolves immediately to `new Style()` without caching or logging; with
a context and a loading image the composited icon style is built, inserted
into the cache, and resolved; with a failing image a console error is logged
and the empty style resolved without caching. The JS default argument
`size = DEFAULT_MARKER_SIZE` is passed explicitly at every call site of this
embedding. -/
def createProfileStyle (env : Env) (cache : StyleCache) (profilePath : String)
    (size : Nat) : StyleResult :=
  match cacheLookup cache profilePath size with
  | some s => { style := s, cache := cache, composited := false, errors := [] }
  | none =>
    if env.hasContext = false then
      { style := MarkerStyle.empty, cache := cache, composited := false, errors := [] }
    else if env.imgLoads profilePath then
      let style := MarkerStyle.icon (renderIcon profilePath size)
      { style := style, cache := ((profilePath, size), style) :: cache,
        composited := true, errors := [] }
    else
      { style := MarkerStyle.empty, cache := cache, composited := true,
        errors := ["Failed to load image: " ++ profilePath] }

/-- Map features as the component constructs them: profile features carry a
`Point` geometry and the profile path (lines 310-314); desk features carry a
`Circle` geometry with a center and radius and the desk id
(`createDeskFeature`, lines 214-226). -/
inductive Feature where
  | profileF : Nat × Nat → String → Feature
  | deskF : Nat × Nat → Nat → String → Feature
deriving DecidableEq, Repr

/-- Transcription of `createDeskFeature` (lines 214-226): a `Circle` at the
desk coordinates with the fixed `DESK_RADIUS`, carrying the desk id. The
`size` field of the desk record is not read. -/
def createDeskFeature (desk : DeskLocation) : Feature :=
  Feature.deskF desk.coords DESK_RADIUS desk.id

/-- Desk features registered at startup: `DESK_LOCATIONS.forEach`, one feature
per configuration entry, in order (lines 295-297). -/
def initDeskFeatures : List Feature :=
  DESK_LOCATIONS.map createDeskFeature

/-- Profile features registered at startup (lines 309-319), one per
configuration entry. -/
def initProfileFeatures : List Feature :=
  DEFAULT_LOCATIONS.map (fun l => Feature.profileF l.coords l.profile)

/-- Embedding of `calculateMapHeight` (lines 127-143): clamp
`innerHeight - HEADER_FOOTER_SPACE` between the min and max heights, then
override with 600 whenever `innerWidth < 1024`. Returns the pixel number
written into the `{n}px` style string. -/
def calculateMapHeight (vh vw : Int) : Int :=
  let calculatedHeight := vh - (HEADER_FOOTER_SPACE : Int)
  let constrainedHeight :=
    min (max calculatedHeight (MIN_MAP_HEIGHT : Int)) (MAX_MAP_HEIGHT : Int)
  if vw < 1024 then 600 else constrainedHeight

/-- Per-feature style assignment as set by `feature.setStyle`; an association
list where setting a style replaces any previous entry for that feature. -/
abbrev StyleMap := List (Feature × MarkerStyle)

/-- The effect of `feature.setStyle(style)` on the style assignment. -/
def setStyle (l : StyleMap) (f : Feature) (s : MarkerStyle) : StyleMap :=
  (f, s) :: l.filter (fun p => decide (p.1 ≠ f))

/-- Current style of a feature, if one has been set. -/
def lookupStyle : StyleMap → Feature → Option MarkerStyle
  | [], _ => none
  | p :: rest, f => if p.1 = f then some p.2 else lookupStyle rest f

/-- State the interaction handlers touch: the module-level style cache, the
single `hoveredFeature` variable (line 325), and the style assignment of the
features on the map. -/
structure MapState where
  cache : StyleCache
  hovered : Option Feature
  styles : StyleMap

/-- First half of the pointermove handler (lines 338-347): if a feature is
hovered and it differs from the feature now under the pointer, revert it — a
profile feature gets `createProfileStyle(profile)` at the default size, a desk
feature gets the shared `deskStyle` — and clear `hoveredFeature`. -/
def revertHovered (env : Env) (st : MapState) (feature : Option Feature) : MapState :=
  match st.hovered with
  | none => st
  | some hf =>
    if some hf ≠ feature then
      match hf with
      | Feature.profileF _ p =>
        let r := createProfileStyle env st.cache p DEFAULT_MARKER_SIZE
        { cache := r.cache, hovered := none, styles := setStyle st.styles hf r.style }
      | Feature.deskF _ _ _ =>
        { st with hovered := none, styles := setStyle st.styles hf deskStyle }
    else st

/-- Second half of the pointermove handler (lines 349-361): if a feature is
under the pointer and is not the currently hovered one, apply its hover style
— the hover-size composited icon for a profile feature, `deskHoverStyle` for a
desk feature — and record it as hovered. -/
def applyHover (env : Env) (st : MapState) (feature : Option Feature) : MapState :=
  match feature with
  | none => st
  | some f =>
    if st.hovered ≠ some f then
      match f with
      | Feature.profileF _ p =>
        let r := createProfileStyle env st.cache p HOVER_MARKER_SIZE
        { cache := r.cache, hovered := some f, styles := setStyle st.styles f r.style }
      | Feature.deskF _ _ _ =>
        { st with hovered := some f, styles := setStyle st.styles f deskHoverStyle }
    else st

/-- One pointermove event (lines 327-362), given the feature the hit test
reports under the pointer (`forEachFeatureAtPixel` returns at most one
feature): revert the stale hover, then apply the new one. -/
def pointermove (env : Env) (st : MapState) (feature : Option Feature) : MapState :=
  applyHover env (revertHovered env st feature) feature

/-- A sequence of pointermove events processed in order. -/
def processMoves (env : Env) (st : MapState) (events : List (Option Feature)) : MapState :=
  events.foldl (fun s ev => pointermove env s ev) st

/-- Selection record set for a profile click (interface `SelectedLocation`). -/
structure SelectedLocation where
  coords : Nat × Nat
  profile : String
deriving DecidableEq, Repr

/-- Selection record set for a desk click (interface `SelectedDesk`). -/
structure SelectedDesk where
  id : String
  coords : Nat × Nat
deriving DecidableEq, Repr

/-- A pending `setTimeout` revert scheduled by the click handler: the delay in
milliseconds and the clicked feature captured by the callback closure. -/
structure ScheduledRevert where
  delay : Nat
  feature : Feature
deriving DecidableEq, Repr

/-- Effects of one click event: the cache and style assignment after the
handler, the `setSelectedLocation` / `setIsOpen(true)` and `setSelectedDesk` /
`setIsDeskModalOpen(true)` calls made, and the timers scheduled. -/
structure ClickOutcome where
  cache : StyleCache
  styles : StyleMap
  selectedLocation : Option SelectedLocation
  openedProfileModal : Bool
  selectedDesk : Option SelectedDesk
  openedDeskModal : Bool
  scheduled : List ScheduledRevert
deriving Repr

/-- Embedding of the click handler (lines 365-423), given the feature the hit
test reports at the click pixel. A profile feature with a `Point` geometry
yields a `SelectedLocation` from its coordinates and profile, opens the
profile modal, immediately applies the click-size style, and schedules the
revert after `CLICK_ANIMATION_DURATION`. A desk feature with a `Circle`
geometry yields a `SelectedDesk` from its id and center and opens the desk
modal, with no style change and nothing scheduled. -/
def handleClick (env : Env) (st : MapState) (clicked : Option Feature) : ClickOutcome :=
  match clicked with
  | none =>
    { cache := st.cache, styles := st.styles, selectedLocation := none,
      openedProfileModal := false, selectedDesk := none,
      openedDeskModal := false, scheduled := [] }
  | some f =>
    match f with
    | Feature.profileF coords p =>
      let r := createProfileStyle env st.cache p CLICK_MARKER_SIZE
      { cache := r.cache, styles := setStyle st.styles f r.style,
        selectedLocation := some { coords := coords, profile := p },
        openedProfileModal := true, selectedDesk := none,
        openedDeskModal := false,
        scheduled := [{ delay := CLICK_ANIMATION_DURATION, feature := f }] }
    | Feature.deskF center _ id =>
      { cache := st.cache, styles := st.styles, selectedLocation := none,
        openedProfileModal := false,
        selectedDesk := some { id := id, coords := center },
        openedDeskModal := true, scheduled := [] }

/-- The `setTimeout` callback of the click handler (lines 401-407): when the
timer fires it unconditionally sets the feature style to
`createProfileStyle(profile)` at the default size, reading nothing but the
captured feature reference — in particular not the hover state. Only profile
features are ever scheduled; on a desk feature the callback is never built, so
that branch is the identity. -/
def fireRevert (env : Env) (st : MapState) (t : ScheduledRevert) : MapState :=
  match t.feature with
  | Feature.profileF _ p =>
    let r := createProfileStyle env st.cache p DEFAULT_MARKER_SIZE
    { cache := r.cache, hovered := st.hovered, styles := setStyle st.styles t.feature r.style }
  | Feature.deskF _ _ _ => st

/-- Default visual style of a feature: the default-size composited icon for a
profile feature (what initialization sets, lines 315-317), `deskStyle` for a
desk feature (set in `createDeskFeature`). -/
def defaultStyleOf : Feature → MarkerStyle
  | Feature.profileF _ p => MarkerStyle.icon (renderIcon p DEFAULT_MARKER_SIZE)
  | Feature.deskF _ _ _ => deskStyle

/-- Hover visual style of a feature: hover-size composited icon for a profile
feature, `deskHoverStyle` for a desk feature. -/
def hoverStyleOf : Feature → MarkerStyle
  | Feature.profileF _ p => MarkerStyle.icon (renderIcon p HOVER_MARKER_SIZE)
  | Feature.deskF _ _ _ => deskHoverStyle

/-- Cache wellformedness: every entry holds the composited icon style for its
key, which is what every successful `createProfileStyle` run inserts. -/
def cacheWF (c : StyleCache) : Prop :=
  ∀ e ∈ c, e.2 = MarkerStyle.icon (renderIcon e.1.1 e.1.2)

/-- At most one marker in a non-default visual state: every styled feature is
either the (single) hovered feature or carries its default style. -/
def atMostOneNonDefault (st : MapState) : Prop :=
  ∀ p ∈ st.styles, st.hovered = some p.1 ∨ p.2 = defaultStyleOf p.1

/-- Modelled from the spec: the repository itself performs no identity-keyed
desk lookup (desks are reached only through hit-testing), so the behavior of
"any identity-keyed lookup" over the registered configuration is modelled per
the words of the spec as a lookup over the registration order in which a later
registration for the same identity wins. -/
def lookupById : List DeskLocation → String → Option DeskLocation
  | [], _ => none
  | d :: rest, i =>
    match lookupById rest i with
    | some r => some r
    | none => if d.id = i then some d else none

theorem lookupStyle_setStyle_self (l : StyleMap) (f : Feature) (s : MarkerStyle) :
    lookupStyle (setStyle l f s) f = some s := by
  simp [setStyle, lookupStyle]

theorem lookupStyle_filter_ne (l : StyleMap) (f g : Feature) (h : g ≠ f) :
    lookupStyle (l.filter (fun p => decide (p.1 ≠ f))) g = lookupStyle l g := by
  induction l with
  | nil => rfl
  | cons p rest ih =>
    by_cases hp : p.1 = f
    · rw [List.filter_cons_of_neg (by simp [hp])]
      rw [ih]
      have hpr : lookupStyle (p :: rest) g = lookupStyle rest g := by
        simp only [lookupStyle]
        rw [if_neg (fun hpg => h (by rw [← hpg, hp]))]
      rw [hpr]
    · rw [List.filter_cons_of_pos (by simp [hp])]
      simp only [lookupStyle]
      rw [ih]

theorem lookupStyle_setStyle_ne (l : StyleMap) (f g : Feature) (s : MarkerStyle)
    (h : g ≠ f) : lookupStyle (setStyle l f s) g = lookupStyle l g := by
  simp only [setStyle, lookupStyle]
  rw [if_neg (fun hfg : f = g => h hfg.symm)]
  exact lookupStyle_filter_ne l f g h

theorem mem_setStyle {p : Feature × MarkerStyle} {l : StyleMap} {f : Feature}
    {s : MarkerStyle} (h : p ∈ setStyle l f s) : p = (f, s) ∨ (p ∈ l ∧ p.1 ≠ f) := by
  simp only [setStyle, List.mem_cons, List.mem_filter, decide_eq_true_eq] at h
  rcases h with h | ⟨h1, h2⟩
  · exact Or.inl h
  · exact Or.inr ⟨h1, h2⟩

theorem cacheLookup_of_WF {c : StyleCache} (hWF : cacheWF c) {src : String}
    {size : Nat} {s : MarkerStyle} (h : cacheLookup c src size = some s) :
    s = MarkerStyle.icon (renderIcon src size) := by
  induction c with
  | nil => simp [cacheLookup] at h
  | cons e rest ih =>
    simp only [cacheLookup] at h
    split at h
    · rename_i hk
      have he := hWF e (List.mem_cons_self e rest)
      cases h
      rw [he, hk.1, hk.2]
    · exact ih (fun x hx => hWF x (List.mem_cons_of_mem e hx)) h

theorem createProfileStyle_style {env : Env} {c : StyleCache} {src : String}
    (size : Nat) (hWF : cacheWF c) (hc : env.hasContext = true)
    (hl : env.imgLoads src = true) :
    (createProfileStyle env c src size).style = MarkerStyle.icon (renderIcon src size) := by
  unfold createProfileStyle
  cases hcl : cacheLookup c src size with
  | some s => exact cacheLookup_of_WF hWF hcl
  | none => simp [hc, hl]

theorem createProfileStyle_cacheWF {env : Env} {c : StyleCache} {src : String}
    (size : Nat) (hWF : cacheWF c) :
    cacheWF (createProfileStyle env c src size).cache := by
  unfold createProfileStyle
  cases hcl : cacheLookup c src size with
  | some s => exact hWF
  | none =>
    by_cases hc : env.hasContext = false
    · simpa [hc] using hWF
    · rw [if_neg hc]
      by_cases hl : env.imgLoads src
      · simp only [hl, if_pos]
        intro e he
        rcases List.mem_cons.mp he with h | h
        · rw [h]
        · exact hWF e h
      · simpa [hl] using hWF

/-- C9: for every window size with viewport width below the 1024 pixel
threshold, the layout recomputation pins the rendered map height to the fixed
fallback of 600 pixels, regardless of the height computed from the viewport
height. -/
theorem calculateMapHeight_narrow_pins_600 (vh vw : Int) (h : vw < 1024) :
    calculateMapHeight vh vw = 600 := by
  simp [calculateMapHeight, h]

/-- Witness for C9 at viewport 2000 x 800: the width is below the threshold,
the pinned height is 600, and the clamped height the viewport height alone
would give is 1200, so the override is doing real work. -/
theorem calculateMapHeight_narrow_pins_600_witness :
    (800 : Int) < 1024 ∧ calculateMapHeight 2000 800 = 600 ∧
      min (max ((2000 : Int) - (HEADER_FOOTER_SPACE : Int)) (MIN_MAP_HEIGHT : Int))
        (MAX_MAP_HEIGHT : Int) = 1200 :=
  ⟨by decide, calculateMapHeight_narrow_pins_600 2000 800 (by decide), by decide⟩

/-- C10: every desk feature is built as a circle of the fixed `DESK_RADIUS`
equal to 25; the `size` field of a desk configuration entry is never read, so
changing it leaves the created feature unchanged. -/
theorem createDeskFeature_fixed_radius :
    (∀ d : DeskLocation, createDeskFeature d = Feature.deskF d.coords DESK_RADIUS d.id) ∧
    DESK_RADIUS = 25 ∧
    (∀ d : DeskLocation, ∀ s : Nat × Nat,
      createDeskFeature ⟨d.coords, s, d.id⟩ = createDeskFeature d) :=
  ⟨fun _ => rfl, rfl, fun _ _ => rfl⟩

/-- C8: the desk configuration holds two distinct entries with identity
"desk-6" (indices 5 and 6); startup registers one feature per entry without
validation, so both become features; and an identity-keyed lookup over the
registration order returns the last registered entry, the one at
coordinates (309, 96). -/
theorem duplicate_desk_identity_last_wins :
    DESK_LOCATIONS.length = 7 ∧
    DESK_LOCATIONS[5]? = some { coords := (309, 250), size := (50, 50), id := "desk-6" } ∧
    DESK_LOCATIONS[6]? = some { coords := (309, 96), size := (50, 50), id := "desk-6" } ∧
    initDeskFeatures.length = DESK_LOCATIONS.length ∧
    initDeskFeatures[5]? = some (Feature.deskF (309, 250) 25 "desk-6") ∧
    initDeskFeatures[6]? = some (Feature.deskF (309, 96) 25 "desk-6") ∧
    lookupById DESK_LOCATIONS "desk-6"
      = some { coords := (309, 96), size := (50, 50), id := "desk-6" } := by
  refine ⟨rfl, rfl, rfl, rfl, rfl, rfl, ?_⟩
  decide

/-- C7: for every image source and positive pixel size, the compositor
allocates a square canvas of side 2 * (size + borderWidth) with
borderWidth = 3, draws the filled border circle of radius size + borderWidth
centered in the canvas, clips to a circle of radius size at the same center,
draws the source image at offset (borderWidth, borderWidth) scaled to
2 * size, and wraps the canvas as an icon of the canvas size anchored at the
fractional point (0.5, 0.5). -/
theorem renderIcon_geometry (src : String) (size : Nat) (h : 0 < size) :
    (renderIcon src size).canvasW = 2 * (size + borderWidth) ∧
    (renderIcon src size).canvasH = 2 * (size + borderWidth) ∧
    borderWidth = 3 ∧
    (renderIcon src size).borderRadius = size + borderWidth ∧
    (renderIcon src size).borderCenter = (size + borderWidth, size + borderWidth) ∧
    (renderIcon src size).clipCenter = (renderIcon src size).borderCenter ∧
    (renderIcon src size).clipRadius = size ∧
    (renderIcon src size).imgSource = src ∧
    (renderIcon src size).imgPos = (borderWidth, borderWidth) ∧
    (renderIcon src size).imgW = 2 * size ∧
    (renderIcon src size).imgH = 2 * size ∧
    (renderIcon src size).iconSize = (2 * (size + borderWidth), 2 * (size + borderWidth)) ∧
    (renderIcon src size).anchor = (1/2, 1/2) ∧
    (renderIcon src size).anchorXUnits = "fraction" ∧
    (renderIcon src size).anchorYUnits = "fraction" := by
  refine ⟨?_, ?_, rfl, rfl, ?_, rfl, rfl, rfl, rfl, ?_, ?_, ?_, rfl, rfl, rfl⟩ <;>
    simp only [renderIcon, borderWidth, Prod.mk.injEq] <;> omega

/-- Witness for C7 at the default marker size 30 and the first configured
profile image. -/
theorem renderIcon_geometry_witness :
    0 < 30 ∧
    (renderIcon "/profiles/profile1.jpeg" 30).canvasW = 2 * (30 + borderWidth) ∧
    (renderIcon "/profiles/profile1.jpeg" 30).borderCenter
      = (30 + borderWidth, 30 + borderWidth) :=
  ⟨by decide,
    (renderIcon_geometry "/profiles/profile1.jpeg" 30 (by decide)).1,
    (renderIcon_geometry "/profiles/profile1.jpeg" 30 (by decide)).2.2.2.2.1⟩

/-- C4: clicking any desk feature yields a desk selection carrying the desk
identity and circle center, opens the desk modal, leaves every style
untouched, and schedules no timer; in particular this holds for the
configured desk "desk-3" whose feature sits at (333, 506). -/
theorem desk_click_selection (env : Env) (st : MapState) (center : Nat × Nat)
    (radius : Nat) (id : String) :
    handleClick env st (some (Feature.deskF center radius id))
      = { cache := st.cache, styles := st.styles, selectedLocation := none,
          openedProfileModal := false,
          selectedDesk := some { id := id, coords := center },
          openedDeskModal := true, scheduled := [] } ∧
    DESK_LOCATIONS[2]? = some { coords := (333, 506), size := (50, 50), id := "desk-3" } ∧
    createDeskFeature { coords := (333, 506), size := (50, 50), id := "desk-3" }
      = Feature.deskF (333, 506) 25 "desk-3" ∧
    (handleClick env st (some (Feature.deskF (333, 506) 25 "desk-3"))).selectedDesk
      = some { id := "desk-3", coords := (333, 506) } ∧
    (handleClick env st (some (Feature.deskF (333, 506) 25 "desk-3"))).scheduled = [] :=
  ⟨rfl, rfl, rfl, rfl, rfl⟩

/-- C2: after a successful render for a (source, size) pair, the result is in
the cache keyed by that exact pair before the call returns; a second call for
the same pair returns the identical style with the cache unchanged and
without running the compositing path; and no existing entry of the cache is
evicted by the insertion. -/
theorem createProfileStyle_memoizes (env env2 : Env) (c : StyleCache)
    (src : String) (size : Nat) (src2 : String) (size2 : Nat) (s2 : MarkerStyle)
    (hmiss : cacheLookup c src size = none)
    (hctx : env.hasContext = true) (hload : env.imgLoads src = true)
    (hold : cacheLookup c src2 size2 = some s2) :
    (createProfileStyle env c src size).composited = true ∧
    cacheLookup (createProfileStyle env c src size).cache src size
      = some (createProfileStyle env c src size).style ∧
    createProfileStyle env2 (createProfileStyle env c src size).cache src size
      = { style := (createProfileStyle env c src size).style,
          cache := (createProfileStyle env c src size).cache,
          composited := false, errors := [] } ∧
    cacheLookup (createProfileStyle env c src size).cache src2 size2 = some s2 := by
  have hpair : ¬(src = src2 ∧ size = size2) := by
    rintro ⟨rfl, rfl⟩
    rw [hmiss] at hold
    exact Option.noConfusion hold
  have hr : createProfileStyle env c src size
      = { style := MarkerStyle.icon (renderIcon src size),
          cache := ((src, size), MarkerStyle.icon (renderIcon src size)) :: c,
          composited := true, errors := [] } := by
    unfold createProfileStyle
    rw [hmiss]
    simp [hctx, hload]
  rw [hr]
  refine ⟨rfl, ?_, ?_, ?_⟩
  · simp [cacheLookup]
  · unfold createProfileStyle
    simp [cacheLookup]
  · simp only [cacheLookup]
    rw [if_neg hpair]
    exact hold

/-- Witness environment: canvas 2d context available and every image loads. -/
def envW : Env := { hasContext := true, imgLoads := fun _ => true }

/-- Witness cache holding one previously rendered entry for a different
(source, size) pair. -/
def cacheW : StyleCache :=
  [(("/profiles/profile2.jpeg", 40), MarkerStyle.icon (renderIcon "/profiles/profile2.jpeg" 40))]

/-- Witness for C2 at the first profile image and the default size, against a
cache already holding the hover-size entry of another image. -/
theorem createProfileStyle_memoizes_witness :
    cacheLookup cacheW "/profiles/profile1.jpeg" 30 = none ∧
    ((createProfileStyle envW cacheW "/profiles/profile1.jpeg" 30).composited = true ∧
     cacheLookup (createProfileStyle envW cacheW "/profiles/profile1.jpeg" 30).cache
        "/profiles/profile1.jpeg" 30
       = some (createProfileStyle envW cacheW "/profiles/profile1.jpeg" 30).style ∧
     createProfileStyle envW (createProfileStyle envW cacheW "/profiles/profile1.jpeg" 30).cache
        "/profiles/profile1.jpeg" 30
       = { style := (createProfileStyle envW cacheW "/profiles/profile1.jpeg" 30).style,
           cache := (createProfileStyle envW cacheW "/profiles/profile1.jpeg" 30).cache,
           composited := false, errors := [] } ∧
     cacheLookup (createProfileStyle envW cacheW "/profiles/profile1.jpeg" 30).cache
        "/profiles/profile2.jpeg" 40
       = some (MarkerStyle.icon (renderIcon "/profiles/profile2.jpeg" 40))) :=
  ⟨by rfl,
    createProfileStyle_memoizes envW envW cacheW "/profiles/profile1.jpeg" 30
      "/profiles/profile2.jpeg" 40 (MarkerStyle.icon (renderIcon "/profiles/profile2.jpeg" 40))
      (by rfl) rfl rfl (by rfl)⟩

/-- Counterexample for C3 as stated: with the canvas 2d drawing context
unavailable, `createProfileStyle` resolves the empty style but emits no
console error at all, so the context-unavailable failure is not reported via
the side channel the claim requires for it. -/
theorem createProfileStyle_noContext_silent :
    (createProfileStyle { hasContext := false, imgLoads := fun _ => true } []
        "/profiles/profile1.jpeg" 30).style = MarkerStyle.empty ∧
    (createProfileStyle { hasContext := false, imgLoads := fun _ => true } []
        "/profiles/profile1.jpeg" 30).errors = [] :=
  ⟨rfl, rfl⟩

/-- C3 (amended): on any uncached request whose image fails to load or whose
canvas 2d context is unavailable, `createProfileStyle` resolves to the empty
style and leaves the cache unchanged; the image-load failure is reported via
a console error naming the source, while the missing-context fallback is
silent. The embedding is a total function, so every request completes with a
resolved result (bounded completion, never a rejection). -/
theorem createProfileStyle_failure_fallback (env : Env) (c : StyleCache)
    (src : String) (size : Nat)
    (hmiss : cacheLookup c src size = none)
    (hfail : env.hasContext = false ∨ env.imgLoads src = false) :
    (createProfileStyle env c src size).style = MarkerStyle.empty ∧
    (createProfileStyle env c src size).cache = c ∧
    (createProfileStyle env c src size).errors
      = (if env.hasContext = true ∧ env.imgLoads src = false
          then ["Failed to load image: " ++ src] else []) := by
  unfold createProfileStyle
  rw [hmiss]
  cases hc : env.hasContext with
  | false =>
    rcases hfail with h | h <;> simp [hc]
  | true =>
    rcases hfail with h | h
    · exact absurd hc (by simp [h])
    · simp [hc, h]

/-- Witness for C3 (amended) at an unreachable image source with a working
canvas context: the empty style is resolved and the console error names the
source. -/
theorem createProfileStyle_failure_fallback_witness :
    cacheLookup [] "/profiles/missing.jpeg" 30 = none ∧
    ((createProfileStyle { hasContext := true, imgLoads := fun _ => false } []
        "/profiles/missing.jpeg" 30).style = MarkerStyle.empty ∧
     (createProfileStyle { hasContext := true, imgLoads := fun _ => false } []
        "/profiles/missing.jpeg" 30).cache = [] ∧
     (createProfileStyle { hasContext := true, imgLoads := fun _ => false } []
        "/profiles/missing.jpeg" 30).errors
       = (if ({ hasContext := true, imgLoads := fun _ => false } : Env).hasContext = true ∧
            ({ hasContext := true, imgLoads := fun _ => false } : Env).imgLoads
              "/profiles/missing.jpeg" = false
           then ["Failed to load image: " ++ "/profiles/missing.jpeg"] else [])) :=
  ⟨rfl,
    createProfileStyle_failure_fallback { hasContext := true, imgLoads := fun _ => false } []
      "/profiles/missing.jpeg" 30 rfl (Or.inr rfl)⟩

theorem revertHovered_of_hovered_none (env : Env) (st : MapState) (ev : Option Feature)
    (h : st.hovered = none) : revertHovered env st ev = st := by
  unfold revertHovered
  rw [h]

theorem revertHovered_hovered_of_ne (env : Env) (st : MapState) (ev : Option Feature)
    (h : st.hovered ≠ ev) : (revertHovered env st ev).hovered = none := by
  unfold revertHovered
  cases hh : st.hovered with
  | none => exact hh
  | some hf =>
    dsimp only
    rw [if_pos (hh ▸ h)]
    cases hf <;> rfl

theorem revertHovered_cacheWF (env : Env) (st : MapState) (ev : Option Feature)
    (hWF : cacheWF st.cache) : cacheWF (revertHovered env st ev).cache := by
  unfold revertHovered
  split
  · exact hWF
  · split
    · rename_i hf heq hne
      cases hf with
      | profileF co p => exact createProfileStyle_cacheWF DEFAULT_MARKER_SIZE hWF
      | deskF co rad i => exact hWF
    · exact hWF

theorem applyHover_cacheWF (env : Env) (st : MapState) (ev : Option Feature)
    (hWF : cacheWF st.cache) : cacheWF (applyHover env st ev).cache := by
  unfold applyHover
  split
  · exact hWF
  · split
    · rename_i g hcond
      cases g with
      | profileF co p => exact createProfileStyle_cacheWF HOVER_MARKER_SIZE hWF
      | deskF co rad i => exact hWF
    · exact hWF

theorem revertHovered_profile (env : Env) (st : MapState) (ev : Option Feature)
    (co : Nat × Nat) (p : String)
    (hh : st.hovered = some (Feature.profileF co p))
    (hne : some (Feature.profileF co p) ≠ ev) :
    revertHovered env st ev
      = { cache := (createProfileStyle env st.cache p DEFAULT_MARKER_SIZE).cache,
          hovered := none,
          styles := setStyle st.styles (Feature.profileF co p)
            (createProfileStyle env st.cache p DEFAULT_MARKER_SIZE).style } := by
  unfold revertHovered
  rw [hh]
  dsimp only
  rw [if_pos hne]

theorem revertHovered_desk (env : Env) (st : MapState) (ev : Option Feature)
    (co : Nat × Nat) (rad : Nat) (i : String)
    (hh : st.hovered = some (Feature.deskF co rad i))
    (hne : some (Feature.deskF co rad i) ≠ ev) :
    revertHovered env st ev
      = { cache := st.cache, hovered := none,
          styles := setStyle st.styles (Feature.deskF co rad i) deskStyle } := by
  unfold revertHovered
  rw [hh]
  dsimp only
  rw [if_pos hne]

theorem applyHover_profile (env : Env) (st : MapState) (co : Nat × Nat) (p : String)
    (h : st.hovered ≠ some (Feature.profileF co p)) :
    applyHover env st (some (Feature.profileF co p))
      = { cache := (createProfileStyle env st.cache p HOVER_MARKER_SIZE).cache,
          hovered := some (Feature.profileF co p),
          styles := setStyle st.styles (Feature.profileF co p)
            (createProfileStyle env st.cache p HOVER_MARKER_SIZE).style } := by
  unfold applyHover
  dsimp only
  rw [if_pos h]

theorem applyHover_desk (env : Env) (st : MapState) (co : Nat × Nat) (rad : Nat) (i : String)
    (h : st.hovered ≠ some (Feature.deskF co rad i)) :
    applyHover env st (some (Feature.deskF co rad i))
      = { cache := st.cache, hovered := some (Feature.deskF co rad i),
          styles := setStyle st.styles (Feature.deskF co rad i) deskHoverStyle } := by
  unfold applyHover
  dsimp only
  rw [if_pos h]

theorem applyHover_none (env : Env) (st : MapState) : applyHover env st none = st := rfl

theorem revertHovered_spec (env : Env) (st : MapState) (ev : Option Feature)
    (hctx : env.hasContext = true) (hloads : ∀ s, env.imgLoads s = true)
    (hWF : cacheWF st.cache) (hinv : atMostOneNonDefault st) :
    atMostOneNonDefault (revertHovered env st ev) ∧
    ((revertHovered env st ev).hovered = none ∨
      (revertHovered env st ev = st ∧ st.hovered = ev)) := by
  cases hh : st.hovered with
  | none =>
    rw [revertHovered_of_hovered_none env st ev hh]
    exact ⟨hinv, Or.inl hh⟩
  | some hf =>
    by_cases hne : some hf ≠ ev
    · cases hf with
      | profileF co p =>
        rw [revertHovered_profile env st ev co p hh hne]
        constructor
        · intro q hq
          rcases mem_setStyle hq with hq1 | ⟨hq2, hq3⟩
          · right
            rw [hq1]
            exact createProfileStyle_style DEFAULT_MARKER_SIZE hWF hctx (hloads p)
          · rcases hinv q hq2 with hcase | hcase
            · rw [hh] at hcase
              exact absurd (Option.some.inj hcase).symm hq3
            · exact Or.inr hcase
        · exact Or.inl rfl
      | deskF co rad i =>
        rw [revertHovered_desk env st ev co rad i hh hne]
        constructor
        · intro q hq
          rcases mem_setStyle hq with hq1 | ⟨hq2, hq3⟩
          · right
            rw [hq1]
            rfl
          · rcases hinv q hq2 with hcase | hcase
            · rw [hh] at hcase
              exact absurd (Option.some.inj hcase).symm hq3
            · exact Or.inr hcase
        · exact Or.inl rfl
    · push_neg at hne
      have heq : revertHovered env st ev = st := by
        unfold revertHovered
        rw [hh]
        dsimp only
        rw [if_neg (fun hk => hk hne)]
      rw [heq]
      exact ⟨hinv, Or.inr ⟨rfl, hne⟩⟩

theorem applyHover_spec (env : Env) (st : MapState) (ev : Option Feature)
    (hctx : env.hasContext = true) (hloads : ∀ s, env.imgLoads s = true)
    (hWF : cacheWF st.cache) (hinv : atMostOneNonDefault st)
    (hh : st.hovered = none ∨ st.hovered = ev) :
    atMostOneNonDefault (applyHover env st ev) := by
  cases ev with
  | none =>
    rw [applyHover_none]
    exact hinv
  | some f =>
    by_cases hne : st.hovered ≠ some f
    · have hnone : st.hovered = none := by
        rcases hh with h | h
        · exact h
        · exact absurd h hne
      cases f with
      | profileF co p =>
        rw [applyHover_profile env st co p hne]
        intro q hq
        rcases mem_setStyle hq with hq1 | ⟨hq2, hq3⟩
        · left
          rw [hq1]
        · rcases hinv q hq2 with hcase | hcase
          · rw [hnone] at hcase
            exact Option.noConfusion hcase
          · exact Or.inr hcase
      | deskF co rad i =>
        rw [applyHover_desk env st co rad i hne]
        intro q hq
        rcases mem_setStyle hq with hq1 | ⟨hq2, hq3⟩
        · left
          rw [hq1]
        · rcases hinv q hq2 with hcase | hcase
          · rw [hnone] at hcase
            exact Option.noConfusion hcase
          · exact Or.inr hcase
    · push_neg at hne
      have heq : applyHover env st (some f) = st := by
        unfold applyHover
        dsimp only
        rw [if_neg (fun hk => hk hne)]
      rw [heq]
      exact hinv

theorem pointermove_preserves (env : Env) (st : MapState) (ev : Option Feature)
    (hctx : env.hasContext = true) (hloads : ∀ s, env.imgLoads s = true)
    (hWF : cacheWF st.cache) (hinv : atMostOneNonDefault st) :
    cacheWF (pointermove env st ev).cache ∧ atMostOneNonDefault (pointermove env st ev) := by
  have hWF1 := revertHovered_cacheWF env st ev hWF
  obtain ⟨hinv1, hh1⟩ := revertHovered_spec env st ev hctx hloads hWF hinv
  refine ⟨applyHover_cacheWF env (revertHovered env st ev) ev hWF1, ?_⟩
  apply applyHover_spec env (revertHovered env st ev) ev hctx hloads hWF1 hinv1
  rcases hh1 with h | ⟨heq, hev⟩
  · exact Or.inl h
  · rw [heq]
    exact Or.inr hev

/-- C5: over any sequence of pointermove events, the controller state keeps
at most one marker in a non-default visual state: every styled feature other
than the one designated by the single `hoveredFeature` reference carries its
default style, and `hoveredFeature` is one `Option` cell so it never
designates two markers. -/
theorem pointermove_at_most_one_nondefault (env : Env) (st0 : MapState)
    (events : List (Option Feature))
    (hctx : env.hasContext = true) (hloads : ∀ s, env.imgLoads s = true)
    (hWF : cacheWF st0.cache) (hinv : atMostOneNonDefault st0) :
    atMostOneNonDefault (processMoves env st0 events) := by
  induction events generalizing st0 with
  | nil => exact hinv
  | cons e rest ih =>
    have h := pointermove_preserves env st0 e hctx hloads hWF hinv
    exact ih (pointermove env st0 e) h.1 h.2

/-- Witness map state: empty cache, nothing hovered, no styles set. -/
def stW : MapState := { cache := [], hovered := none, styles := [] }

/-- Witness profile feature: the configured marker at (176, 325). -/
def fW : Feature := Feature.profileF (176, 325) "/profiles/profile1.jpeg"

/-- Witness desk feature: the configured desk "desk-1". -/
def dW : Feature := Feature.deskF (176, 255) 25 "desk-1"

/-- Witness for C5: a concrete three-event trace hovering the profile marker,
then the desk, then leaving all markers. -/
theorem pointermove_at_most_one_nondefault_witness :
    atMostOneNonDefault (processMoves envW stW [some fW, some dW, none]) :=
  pointermove_at_most_one_nondefault envW stW [some fW, some dW, none] rfl (fun _ => rfl)
    (fun e he => absurd he (List.not_mem_nil e))
    (fun q hq => absurd hq (List.not_mem_nil q))

theorem pointermove_none_from_hovered_profile (env : Env) (stX : MapState)
    (co : Nat × Nat) (p : String)
    (hctx : env.hasContext = true) (hloads : ∀ s, env.imgLoads s = true)
    (hWFX : cacheWF stX.cache)
    (hhov : stX.hovered = some (Feature.profileF co p)) :
    lookupStyle (pointermove env stX none).styles (Feature.profileF co p)
      = some (MarkerStyle.icon (renderIcon p DEFAULT_MARKER_SIZE)) := by
  have h3 := revertHovered_profile env stX none co p hhov (fun hc => Option.noConfusion hc)
  have hpm : pointermove env stX none = revertHovered env stX none := by
    unfold pointermove
    rw [applyHover_none]
  rw [hpm, h3]
  dsimp only
  rw [lookupStyle_setStyle_self]
  rw [createProfileStyle_style DEFAULT_MARKER_SIZE hWFX hctx (hloads p)]

theorem pointermove_none_from_hovered_desk (env : Env) (stX : MapState)
    (co : Nat × Nat) (rad : Nat) (i : String)
    (hhov : stX.hovered = some (Feature.deskF co rad i)) :
    lookupStyle (pointermove env stX none).styles (Feature.deskF co rad i)
      = some deskStyle := by
  have h3 := revertHovered_desk env stX none co rad i hhov (fun hc => Option.noConfusion hc)
  have hpm : pointermove env stX none = revertHovered env stX none := by
    unfold pointermove
    rw [applyHover_none]
  rw [hpm, h3]
  dsimp only
  rw [lookupStyle_setStyle_self]

/-- C6: hovering any not-currently-hovered marker applies its hover style
(the hover-size composited icon for a profile marker, the hover fill for a
desk marker), and moving the pointer off all markers afterwards restores
exactly the default style of the marker: the default-size composited icon for a
profile marker and the shared default fill for a desk marker. -/
theorem hover_then_leave_restores_default (env : Env) (st : MapState) (f : Feature)
    (hctx : env.hasContext = true) (hloads : ∀ s, env.imgLoads s = true)
    (hWF : cacheWF st.cache) (hnot : st.hovered ≠ some f) :
    lookupStyle (pointermove env st (some f)).styles f = some (hoverStyleOf f) ∧
    lookupStyle (pointermove env (pointermove env st (some f)) none).styles f
      = some (defaultStyleOf f) := by
  have h1hov : (revertHovered env st (some f)).hovered = none :=
    revertHovered_hovered_of_ne env st (some f) hnot
  have h1WF : cacheWF (revertHovered env st (some f)).cache :=
    revertHovered_cacheWF env st (some f) hWF
  cases f with
  | profileF co p =>
    have hne2 : (revertHovered env st (some (Feature.profileF co p))).hovered
        ≠ some (Feature.profileF co p) := by
      rw [h1hov]
      exact fun hc => Option.noConfusion hc
    have h2 := applyHover_profile env (revertHovered env st (some (Feature.profileF co p)))
      co p hne2
    have hpm1 : pointermove env st (some (Feature.profileF co p))
        = applyHover env (revertHovered env st (some (Feature.profileF co p)))
            (some (Feature.profileF co p)) := rfl
    constructor
    · rw [hpm1, h2]
      dsimp only
      rw [lookupStyle_setStyle_self]
      rw [createProfileStyle_style HOVER_MARKER_SIZE h1WF hctx (hloads p)]
      rfl
    · have hhov2 : (pointermove env st (some (Feature.profileF co p))).hovered
          = some (Feature.profileF co p) := by
        rw [hpm1, h2]
      have hWF2 : cacheWF (pointermove env st (some (Feature.profileF co p))).cache :=
        applyHover_cacheWF env (revertHovered env st (some (Feature.profileF co p)))
          (some (Feature.profileF co p)) h1WF
      exact pointermove_none_from_hovered_profile env
        (pointermove env st (some (Feature.profileF co p))) co p hctx hloads hWF2 hhov2
  | deskF co rad i =>
    have hne2 : (revertHovered env st (some (Feature.deskF co rad i))).hovered
        ≠ some (Feature.deskF co rad i) := by
      rw [h1hov]
      exact fun hc => Option.noConfusion hc
    have h2 := applyHover_desk env (revertHovered env st (some (Feature.deskF co rad i)))
      co rad i hne2
    have hpm1 : pointermove env st (some (Feature.deskF co rad i))
        = applyHover env (revertHovered env st (some (Feature.deskF co rad i)))
            (some (Feature.deskF co rad i)) := rfl
    constructor
    · rw [hpm1, h2]
      dsimp only
      rw [lookupStyle_setStyle_self]
      rfl
    · have hhov2 : (pointermove env st (some (Feature.deskF co rad i))).hovered
          = some (Feature.deskF co rad i) := by
        rw [hpm1, h2]
      exact pointermove_none_from_hovered_desk env
        (pointermove env st (some (Feature.deskF co rad i))) co rad i hhov2

/-- Witness for C6: hovering and leaving the configured profile marker at
(176, 325) from the idle state. -/
theorem hover_then_leave_restores_default_witness :
    lookupStyle (pointermove envW stW (some fW)).styles fW = some (hoverStyleOf fW) ∧
    lookupStyle (pointermove envW (pointermove envW stW (some fW)) none).styles fW
      = some (defaultStyleOf fW) :=
  hover_then_leave_restores_default envW stW fW rfl (fun _ => rfl)
    (fun e he => absurd he (List.not_mem_nil e))
    (fun hc => Option.noConfusion hc)

/-- C1: clicking any profile marker emits a selection carrying the
coordinates of the marker and image source and opens the profile modal; the style of the marker
is set to the click-size composited icon immediately; exactly one revert is
scheduled, after the fixed `CLICK_ANIMATION_DURATION` of 200 ms; and when
that timer fires — over any hover state, cache and style assignment at that
moment — the style of the marker is set back to its default (non-enlarged) style
unconditionally. -/
theorem profile_click_behavior (env : Env) (st : MapState) (coords : Nat × Nat)
    (p : String) (hov : Option Feature) (c2 : StyleCache) (l2 : StyleMap)
    (hWF : cacheWF st.cache) (hWF2 : cacheWF c2)
    (hctx : env.hasContext = true) (hload : env.imgLoads p = true) :
    (handleClick env st (some (Feature.profileF coords p))).selectedLocation
        = some { coords := coords, profile := p } ∧
    (handleClick env st (some (Feature.profileF coords p))).openedProfileModal = true ∧
    lookupStyle (handleClick env st (some (Feature.profileF coords p))).styles
        (Feature.profileF coords p)
        = some (MarkerStyle.icon (renderIcon p CLICK_MARKER_SIZE)) ∧
    (handleClick env st (some (Feature.profileF coords p))).scheduled
        = [{ delay := CLICK_ANIMATION_DURATION, feature := Feature.profileF coords p }] ∧
    CLICK_ANIMATION_DURATION = 200 ∧
    lookupStyle (fireRevert env { cache := c2, hovered := hov, styles := l2 }
        { delay := CLICK_ANIMATION_DURATION, feature := Feature.profileF coords p }).styles
        (Feature.profileF coords p)
      = some (defaultStyleOf (Feature.profileF coords p)) := by
  have h1 : (handleClick env st (some (Feature.profileF coords p))).styles
      = setStyle st.styles (Feature.profileF coords p)
          (createProfileStyle env st.cache p CLICK_MARKER_SIZE).style := rfl
  have h2 : (fireRevert env { cache := c2, hovered := hov, styles := l2 }
      { delay := CLICK_ANIMATION_DURATION, feature := Feature.profileF coords p }).styles
      = setStyle l2 (Feature.profileF coords p)
          (createProfileStyle env c2 p DEFAULT_MARKER_SIZE).style := rfl
  refine ⟨rfl, rfl, ?_, rfl, rfl, ?_⟩
  · rw [h1, lookupStyle_setStyle_self,
      createProfileStyle_style CLICK_MARKER_SIZE hWF hctx hload]
  · rw [h2, lookupStyle_setStyle_self,
      createProfileStyle_style DEFAULT_MARKER_SIZE hWF2 hctx hload]
    rfl

/-- Witness style assignment at timer-fire time: the clicked marker still
carries the click-size style. -/
def l2W : StyleMap := [(fW, MarkerStyle.icon (renderIcon "/profiles/profile1.jpeg" CLICK_MARKER_SIZE))]

/-- Witness for C1 at the configured profile marker at (176, 325) with source
"/profiles/profile1.jpeg" (also checked to be a registered feature), with the
desk "desk-1" hovered when the revert timer fires. -/
theorem profile_click_behavior_witness :
    fW ∈ initProfileFeatures ∧
    ((handleClick envW stW (some (Feature.profileF (176, 325) "/profiles/profile1.jpeg"))).selectedLocation
        = some { coords := (176, 325), profile := "/profiles/profile1.jpeg" } ∧
     (handleClick envW stW (some (Feature.profileF (176, 325) "/profiles/profile1.jpeg"))).openedProfileModal = true ∧
     lookupStyle (handleClick envW stW (some (Feature.profileF (176, 325) "/profiles/profile1.jpeg"))).styles
        (Feature.profileF (176, 325) "/profiles/profile1.jpeg")
        = some (MarkerStyle.icon (renderIcon "/profiles/profile1.jpeg" CLICK_MARKER_SIZE)) ∧
     (handleClick envW stW (some (Feature.profileF (176, 325) "/profiles/profile1.jpeg"))).scheduled
        = [{ delay := CLICK_ANIMATION_DURATION,
             feature := Feature.profileF (176, 325) "/profiles/profile1.jpeg" }] ∧
     CLICK_ANIMATION_DURATION = 200 ∧
     lookupStyle (fireRevert envW { cache := [], hovered := some dW, styles := l2W }
        { delay := CLICK_ANIMATION_DURATION,
          feature := Feature.profileF (176, 325) "/profiles/profile1.jpeg" }).styles
        (Feature.profileF (176, 325) "/profiles/profile1.jpeg")
      = some (defaultStyleOf (Feature.profileF (176, 325) "/profiles/profile1.jpeg"))) :=
  ⟨by decide,
    profile_click_behavior envW stW (176, 325) "/profiles/profile1.jpeg" (some dW) [] l2W
      (fun e he => absurd he (List.not_mem_nil e))
      (fun e he => absurd he (List.not_mem_nil e))
      rfl rfl⟩

end Siento
